import Mathlib

/-!
Verification of the error-trigger demo application (vue-project-sentry).

The repository is a two-view single-page application whose views expose a
catalog of zero-argument trigger actions.  Each action performs a fixed,
deterministic sequence of externally observable effects: direct report calls
into the monitoring client (captureMessage / captureException), synchronous
or deferred throws, unhandled promise rejections, breadcrumb appends, and
appends to a view-local activity log.  This file embeds those actions, the
activity-log operations of HomeView, the component fault boundary and error
state of AboutView, the depth-bounded recursion and the counted loop of
AboutView, the timer-driven bounded-growth demo, the production-gated
monitoring bootstrap of main.ts, and a strict JSON parser (the host
JSON.parse consumed by triggerJSONError), and proves the behavioural
properties stated in the design document about them.
-/

/-- An externally observable effect of a trigger action.  Console logging is
not modelled: it is neither a report, a throw, a rejection, nor a log append,
and no stated property mentions it. -/
inductive Effect where
  /-- A direct Sentry.captureMessage call with a message and a severity level. -/
  | reportMessage (msg level : String)
  /-- A direct Sentry.captureException call reporting an error message. -/
  | reportException (msg : String)
  /-- A thrown error (synchronous, or deferred via a one-shot timer) that is
  not caught by the action itself. -/
  | throwErr (msg : String)
  /-- An unhandled promise rejection carrying an error message. -/
  | rejectPromise (msg : String)
  /-- A Sentry.addBreadcrumb call with a category and a message. -/
  | addBreadcrumb (category msg : String)
  /-- An append to the view-local activity log. -/
  | logAppend (msg : String)
  /-- A Sentry.setContext call attaching a context block under a key. -/
  | setContext (key : String)
  deriving Repr, DecidableEq

/-- Effects the spec counts as the side effect of a trigger action: a throw,
a rejection, or a direct report call into the monitoring client. -/
def isPrimaryEffect : Effect → Bool
  | .reportMessage _ _ => true
  | .reportException _ => true
  | .throwErr _ => true
  | .rejectPromise _ => true
  | _ => false

/-! ## HomeView: the activity log (addLog / clearLog) -/

/-- HomeView.addLog: unshift the timestamped entry onto the front of the log,
then, if the log now holds more than 10 entries, keep only the first 10
(slice from index 0 to 10). -/
def addLog (log : List String) (timestamp message : String) : List String :=
  let l := (timestamp ++ " - " ++ message) :: log
  if l.length > 10 then l.take 10 else l

/-- HomeView.clearLog: reset the log to the empty array. -/
def clearLog (_ : List String) : List String := []

/-- An operation on the activity log: an append (with its creation timestamp
and message) or an explicit clear. -/
inductive LogOp where
  | add (timestamp message : String)
  | clear
  deriving Repr, DecidableEq

/-- Apply one log operation to a log state. -/
def applyLogOp (log : List String) : LogOp → List String
  | .add t m => addLog log t m
  | .clear => clearLog log

/-- Run a sequence of log operations starting from the initial empty log. -/
def runLog (ops : List LogOp) : List String := ops.foldl applyLogOp []

/-! ## AboutView: component fault boundary and error state -/

/-- The onErrorCaptured hook of AboutView: it records the fault message and
the auxiliary component info into componentError and returns false.  The
second component is the hook's return value, handed back to Vue. -/
def onErrorCapturedHook (_componentError : Option String) (errMsg info : String) :
    Option String × Option Bool :=
  (some (errMsg ++ " (" ++ info ++ ")"), some false)

/-- Vue semantics of an errorCaptured hook return value: the fault continues
to propagate upward unless the hook explicitly returned false. -/
def propagatesUpward (hookReturn : Option Bool) : Bool := hookReturn ≠ some false

/-- The close button of the error banner: componentError = null. -/
def clearComponentError : Option String := none

/-! ## AboutView: depth-bounded recursion (triggerStackOverflow) -/

/-- The inner recursiveFunction of triggerStackOverflow: throws the error
message once the depth counter exceeds 10000, otherwise recurses with the
counter incremented.  A total function: the raise is a controlled check on
the explicit counter, not a host stack-overflow signal. -/
def recursiveFunction (depth : Nat) : Except String Unit :=
  if h : depth > 10000 then Except.error "达到最大递归深度"
  else recursiveFunction (depth + 1)
termination_by 10001 - depth
decreasing_by omega

/-- The value of the depth counter at the moment recursiveFunction raises,
as a function of the starting depth; it follows the recursion of
recursiveFunction exactly. -/
def recursionThrowDepth (depth : Nat) : Nat :=
  if h : depth > 10000 then depth
  else recursionThrowDepth (depth + 1)
termination_by 10001 - depth
decreasing_by omega

/-! ## AboutView: counted loop (triggerInfiniteLoop) -/

/-- The loop bound of triggerInfiniteLoop. -/
def loopLimit : Nat := 1000000

/-- The while loop of triggerInfiniteLoop: starting from count, increment
while count < limit; returns the final value of count. -/
def loopWhile (count limit : Nat) : Nat :=
  if h : count < limit then loopWhile (count + 1) limit
  else count
termination_by limit - count
decreasing_by omega

theorem loopWhile_eq (limit : Nat) : ∀ k count, count + k = limit → loopWhile count limit = limit := by
  intro k
  induction k with
  | zero =>
    intro c hc
    rw [loopWhile]
    simp [show ¬ c < limit by omega]
    omega
  | succ n ih =>
    intro c hc
    rw [loopWhile]
    rw [dif_pos (show c < limit by omega)]
    exact ih (c + 1) (by omega)

/-! ## AboutView: bounded-growth demo (triggerMemoryLeak)

triggerMemoryLeak starts a repeating 100 ms interval that pushes a
1,000,000-element buffer onto leakyArray each time it fires, and schedules a
one-shot 5000 ms timeout that clears the interval and empties leakyArray.
The single-threaded event queue is modelled at a 100 ms granularity: step
n processes the timer callbacks due at time 100 * n milliseconds. -/

/-- The timer-visible state of the bounded-growth demo: whether the
repeating interval is still scheduled, and the sizes of the buffers
accumulated in leakyArray. -/
structure LeakState where
  intervalActive : Bool
  buffers : List Nat
  deriving Repr, DecidableEq

/-- The state right after triggerMemoryLeak runs: interval scheduled,
leakyArray empty. -/
def leakInit : LeakState := { intervalActive := true, buffers := [] }

/-- Process the timer callbacks due at time t (a multiple of 100 ms): the
interval callback fires first when still scheduled and pushes a
1,000,000-element buffer; then, exactly at t = 5000, the one-shot timeout
fires, clears the interval and sets leakyArray.length = 0. -/
def leakStep (s : LeakState) (t : Nat) : LeakState :=
  let s1 := if s.intervalActive then { s with buffers := 1000000 :: s.buffers } else s
  if t = 5000 then { intervalActive := false, buffers := [] } else s1

/-- The state after the first n timer ticks (tick n happens at 100 * n ms). -/
def leakRun : Nat → LeakState
  | 0 => leakInit
  | n + 1 => leakStep (leakRun n) (100 * (n + 1))

/-! ## main.ts: production-gated monitoring bootstrap -/

/-- The configuration of the monitoring client built by Sentry.init in
main.ts.  Sampling rates are recorded in percent (tracesSampleRate 1.0,
replaysSessionSampleRate 0.1 and replaysOnErrorSampleRate 1.0 become 100,
10 and 100). -/
structure SentryClient where
  dsn : String
  release : String
  tracesSampleRatePercent : Nat
  replaysSessionSampleRatePercent : Nat
  replaysOnErrorSampleRatePercent : Nat
  environment : String
  deriving Repr, DecidableEq

/-- main.ts: Sentry.init is called, constructing the monitoring client, if
and only if import.meta.env.VITE_MODE is the string production; the
environment variables are Option-valued because Vite env entries may be
absent. -/
def bootstrapClient (viteMode viteSentryDsn viteAppVersion : Option String) :
    Option SentryClient :=
  if viteMode = some "production" then
    some { dsn := viteSentryDsn.getD "undefined"
           release := "vue-project-sentry@" ++ viteAppVersion.getD "undefined"
           tracesSampleRatePercent := 100
           replaysSessionSampleRatePercent := 10
           replaysOnErrorSampleRatePercent := 100
           environment := "production" }
  else none

/-- Modelled from the spec: the monitoring SDK's report-message entry point
(Sentry.captureMessage) is not part of this repository; per the spec, when no
client has been constructed the call is a no-op that does not throw, and with
a client present it emits exactly one report.  Totality of the function (it
always returns ok) is the absence of a throw. -/
def captureMessageSDK (client : Option SentryClient) (msg level : String) :
    Except String (List Effect) :=
  match client with
  | none => Except.ok []
  | some _ => Except.ok [Effect.reportMessage msg level]

/-- Modelled from the spec: the monitoring SDK's report-exception entry point
(Sentry.captureException), under the same contract as captureMessageSDK. -/
def captureExceptionSDK (client : Option SentryClient) (msg : String) :
    Except String (List Effect) :=
  match client with
  | none => Except.ok []
  | some _ => Except.ok [Effect.reportException msg]

/-! ## The strict JSON parser consumed by triggerJSONError

JSON.parse is a host built-in, not part of this repository; it is modelled
here from the spec as a strict parser of the JSON grammar (RFC 8259).
The delimiter characters of the grammar (quote, backslash, braces,
whitespace controls) are bound to names once and used by name below. -/

def quoteChar : Char := Char.ofNat 34

def backslashChar : Char := Char.ofNat 92

def leftBraceChar : Char := Char.ofNat 123

def rightBraceChar : Char := Char.ofNat 125

def newlineChar : Char := Char.ofNat 10

def tabChar : Char := Char.ofNat 9

def carriageReturnChar : Char := Char.ofNat 13

/-- JSON insignificant whitespace: space, newline, tab, carriage return. -/
def isJsonWs (c : Char) : Bool :=
  c = ' ' || c = newlineChar || c = tabChar || c = carriageReturnChar

/-- Drop leading JSON whitespace. -/
def skipJsonWs : List Char → List Char
  | [] => []
  | c :: cs => if isJsonWs c then skipJsonWs cs else c :: cs

/-- A hexadecimal digit, as allowed in a JSON string u-escape. -/
def isHexDigitChar (c : Char) : Bool :=
  c.isDigit || ('a' ≤ c && c ≤ 'f') || ('A' ≤ c && c ≤ 'F')

/-- Consume a maximal run of decimal digits, returning the run and the rest. -/
def takeDigits : List Char → List Char × List Char
  | [] => ([], [])
  | c :: cs =>
    if c.isDigit then
      let p := takeDigits cs
      (c :: p.1, p.2)
    else ([], c :: cs)

/-- Parse the optional exponent part of a JSON number. -/
def parseJsonExp (cs : List Char) : Option (List Char) :=
  match cs with
  | [] => some []
  | c :: rest =>
    if c = 'e' || c = 'E' then
      let rest1 := match rest with
        | [] => ([] : List Char)
        | s :: r2 => if s = '+' || s = '-' then r2 else s :: r2
      match rest1 with
      | [] => none
      | d :: r3 => if d.isDigit then some (takeDigits r3).2 else none
    else some (c :: rest)

/-- Parse the optional fraction part of a JSON number, then the exponent. -/
def parseJsonFrac (cs : List Char) : Option (List Char) :=
  match cs with
  | [] => some []
  | c :: rest =>
    if c = '.' then
      match rest with
      | [] => none
      | d :: r2 => if d.isDigit then parseJsonExp (takeDigits r2).2 else none
    else parseJsonExp (c :: rest)

/-- Parse a JSON number: an optional minus, an integer part with no leading
zero, then fraction and exponent. -/
def parseJsonNumber (cs : List Char) : Option (List Char) :=
  let cs1 := match cs with
    | [] => ([] : List Char)
    | c :: r => if c = '-' then r else c :: r
  match cs1 with
  | [] => none
  | c :: r =>
    if c = '0' then parseJsonFrac r
    else if c.isDigit then parseJsonFrac (takeDigits r).2
    else none

/-- The syntactic category the recursive-descent parser is working on:
a value, the members of an object, the items of an array, or the remainder
of a string after its opening quote. -/
inductive JsonMode where
  | value
  | members
  | items
  | stringRest
  deriving Repr, DecidableEq

/-- Modelled from the spec: the recursive descent of the strict JSON parser.
On success it returns the input remaining after the parsed construct; fuel
bounds the recursion and is chosen larger than the input by the caller, so
running out of fuel never rejects a valid document. -/
def parseJson : Nat → JsonMode → List Char → Option (List Char)
  | 0, _, _ => none
  | fuel + 1, mode, cs =>
    match mode with
    | .value =>
      match cs with
      | [] => none
      | c :: rest =>
        if c = quoteChar then parseJson fuel .stringRest rest
        else if c = leftBraceChar then
          match skipJsonWs rest with
          | [] => none
          | c2 :: r2 =>
            if c2 = rightBraceChar then some r2
            else parseJson fuel .members (c2 :: r2)
        else if c = '[' then
          match skipJsonWs rest with
          | [] => none
          | c2 :: r2 =>
            if c2 = ']' then some r2
            else parseJson fuel .items (c2 :: r2)
        else if c = 't' then
          match rest with
          | 'r' :: 'u' :: 'e' :: r2 => some r2
          | _ => none
        else if c = 'f' then
          match rest with
          | 'a' :: 'l' :: 's' :: 'e' :: r2 => some r2
          | _ => none
        else if c = 'n' then
          match rest with
          | 'u' :: 'l' :: 'l' :: r2 => some r2
          | _ => none
        else if c = '-' || c.isDigit then parseJsonNumber (c :: rest)
        else none
    | .members =>
      match cs with
      | [] => none
      | c :: rest =>
        if c = quoteChar then
          match parseJson fuel .stringRest rest with
          | none => none
          | some r1 =>
            match skipJsonWs r1 with
            | [] => none
            | c2 :: r2 =>
              if c2 = ':' then
                match parseJson fuel .value (skipJsonWs r2) with
                | none => none
                | some r3 =>
                  match skipJsonWs r3 with
                  | [] => none
                  | c3 :: r4 =>
                    if c3 = ',' then parseJson fuel .members (skipJsonWs r4)
                    else if c3 = rightBraceChar then some r4
                    else none
              else none
        else none
    | .items =>
      match parseJson fuel .value cs with
      | none => none
      | some r1 =>
        match skipJsonWs r1 with
        | [] => none
        | c2 :: r2 =>
          if c2 = ',' then parseJson fuel .items (skipJsonWs r2)
          else if c2 = ']' then some r2
          else none
    | .stringRest =>
      match cs with
      | [] => none
      | c :: rest =>
        if c = quoteChar then some rest
        else if c = backslashChar then
          match rest with
          | [] => none
          | e :: r2 =>
            if e = 'u' then
              match r2 with
              | h1 :: h2 :: h3 :: h4 :: r3 =>
                if isHexDigitChar h1 && isHexDigitChar h2 &&
                    isHexDigitChar h3 && isHexDigitChar h4
                then parseJson fuel .stringRest r3
                else none
              | _ => none
            else if e = quoteChar || e = backslashChar || e = '/' || e = 'b' ||
                e = 'f' || e = 'n' || e = 'r' || e = 't'
            then parseJson fuel .stringRest r2
            else none
        else if c.toNat < 32 then none
        else parseJson fuel .stringRest rest

namespace JSON

/-- Modelled from the spec: JSON.parse, the host's strict parser, is not part
of this repository.  It accepts exactly the syntactically valid JSON
documents (returning some value) and raises a SyntaxError (returns none) on
any other input.  The fuel passed to the descent exceeds any possible
consumption on the given input. -/
def parse (s : String) : Option Unit :=
  match parseJson (2 * s.length + 8) .value (skipJsonWs s.data) with
  | none => none
  | some rest => if skipJsonWs rest = [] then some () else none

end JSON

/-- The fixed malformed literal fed to JSON.parse by triggerJSONError:
unquoted object keys and an unquoted bareword value. -/
def invalidJSON : String := "\x7binvalid: json, missing: \x22quotes\x22\x7d"

/-! ## The trigger catalogs of the two views

Each action is recorded with the effect trace a single invocation produces
when the monitoring client is present: synchronous effects first, then the
effects of its timer-scheduled continuations in scheduling order.  Error
texts produced by the host (a ReferenceError or TypeError message, the
transport-failure text wrapped by the network actions) are modelled from the
spec, since the host runtime is not part of this repository. -/

/-- A trigger action: its name and its effect trace per invocation. -/
structure TriggerAction where
  name : String
  effects : List Effect
  deriving Repr, DecidableEq

/-- The number of effects of the action that the spec counts as its side
effect (throws, rejections, direct report calls). -/
def primaryEffectCount (a : TriggerAction) : Nat :=
  (a.effects.filter isPrimaryEffect).length

/-- AboutView action 1: reports a warning message; its interval-driven
allocations and their 5-second cancellation are modelled by leakRun. -/
def triggerMemoryLeak : TriggerAction :=
  { name := "triggerMemoryLeak"
    effects := [.reportMessage "触发了内存泄漏测试" "warning"] }

/-- AboutView action 2: reports a warning, runs the counted loop to its
limit, then throws an error naming the limit. -/
def triggerInfiniteLoop : TriggerAction :=
  { name := "triggerInfiniteLoop"
    effects := [.reportMessage "触发了无限循环错误（已限制）" "warning",
                .throwErr ("循环执行了 " ++ toString loopLimit ++ " 次后抛出错误")] }

/-- AboutView action 3: reports an error message, then throws from the
depth-bounded recursion (the message of recursiveFunction's raise). -/
def triggerStackOverflow : TriggerAction :=
  { name := "triggerStackOverflow"
    effects := [.reportMessage "触发堆栈溢出错误" "error",
                .throwErr "达到最大递归深度"] }

/-- AboutView action 4: reports an error message, then throws the
SyntaxError that JSON.parse raises on the malformed literal; the throw is
present exactly when the parse fails. -/
def triggerJSONError : TriggerAction :=
  { name := "triggerJSONError"
    effects := .reportMessage "触发 JSON 解析错误" "error" ::
      (match JSON.parse invalidJSON with
       | none => [.throwErr "Unexpected token i in JSON at position 1"]
       | some _ => []) }

/-- AboutView action 5 (async): reports an error message; the failed fetch
is caught and rethrown wrapped, and the async function's throw surfaces as an
unhandled rejection of the promise the caller never awaits. -/
def triggerCORSError : TriggerAction :=
  { name := "triggerCORSError"
    effects := [.reportMessage "触发跨域错误" "error",
                .rejectPromise "跨域请求失败: TypeError: Failed to fetch"] }

/-- AboutView action 6: reports an info message, then three one-shot timers
fire in order: two throws caught locally and reported via captureException,
and a final uncaught throw. -/
def triggerMultipleErrors : TriggerAction :=
  { name := "triggerMultipleErrors"
    effects := [.reportMessage "开始触发多个连续错误" "info",
                .reportException "第1个错误",
                .reportException "第2个错误",
                .throwErr "第3个错误（未捕获）"] }

/-- AboutView action 7: constructs the custom business error, submits it via
captureException with tags and a context block, then throws it. -/
def triggerCustomError : TriggerAction :=
  { name := "triggerCustomError"
    effects := [.reportException "业务逻辑错误：用户余额不足",
                .throwErr "业务逻辑错误：用户余额不足"] }

/-- AboutView action 10: appends three breadcrumbs, then a one-shot timer
throws an error annotated by the preceding trail. -/
def triggerBreadcrumbTest : TriggerAction :=
  { name := "triggerBreadcrumbTest"
    effects := [.addBreadcrumb "user-action" "用户点击了面包屑测试按钮",
                .addBreadcrumb "navigation" "用户准备执行一个操作",
                .addBreadcrumb "api" "模拟 API 调用",
                .throwErr "这是一个带有完整面包屑追踪的错误"] }

/-- HomeView action 1: the call to the undefined function raises; the catch
block appends to the log and rethrows the same error. -/
def triggerUndefinedFunction : TriggerAction :=
  { name := "triggerUndefinedFunction"
    effects := [.logAppend "触发了未定义函数错误",
                .throwErr "myUndefinedFunction is not defined"] }

/-- HomeView action 2: logs, then throws the fixed test error. -/
def triggerManualError : TriggerAction :=
  { name := "triggerManualError"
    effects := [.logAppend "手动抛出自定义错误",
                .throwErr "这是一个手动触发的测试错误！"] }

/-- HomeView action 3: logs, then produces a rejected promise nobody
handles. -/
def triggerPromiseRejection : TriggerAction :=
  { name := "triggerPromiseRejection"
    effects := [.logAppend "触发 Promise rejection",
                .rejectPromise "Promise 被拒绝了！"] }

/-- HomeView action 4 (async): logs, awaits a 100 ms timer, then throws;
the caller never awaits the promise, so the throw is an unhandled
rejection. -/
def triggerAsyncError : TriggerAction :=
  { name := "triggerAsyncError"
    effects := [.logAppend "触发异步错误",
                .rejectPromise "异步函数中的错误！"] }

/-- HomeView action 5: logs, then dereferences a property of null, raising a
TypeError. -/
def triggerTypeError : TriggerAction :=
  { name := "triggerTypeError"
    effects := [.logAppend "触发类型错误",
                .throwErr "Cannot read properties of null"] }

/-- HomeView action 6: logs, then reads an undeclared identifier, raising a
ReferenceError. -/
def triggerReferenceError : TriggerAction :=
  { name := "triggerReferenceError"
    effects := [.logAppend "触发引用错误",
                .throwErr "nonExistentVariable is not defined"] }

/-- HomeView action 7 (async): logs; the fetch of the unreachable address
fails, is caught and rethrown wrapped, surfacing as an unhandled
rejection. -/
def triggerNetworkError : TriggerAction :=
  { name := "triggerNetworkError"
    effects := [.logAppend "触发网络错误",
                .rejectPromise "网络请求失败: TypeError: Failed to fetch"] }

/-- HomeView action 8: logs, then reports an error via captureException
without throwing. -/
def triggerCaptureException : TriggerAction :=
  { name := "triggerCaptureException"
    effects := [.logAppend "使用 Sentry.captureException 手动捕获异常",
                .reportException "这是通过 Sentry.captureException 手动捕获的错误"] }

/-- HomeView action 9: logs, then reports a warning message via
captureMessage without throwing. -/
def triggerCaptureMessage : TriggerAction :=
  { name := "triggerCaptureMessage"
    effects := [.logAppend "使用 Sentry.captureMessage 发送消息",
                .reportMessage "这是一条测试消息" "warning"] }

/-- HomeView action 10: logs, attaches a context block, then throws. -/
def triggerErrorWithContext : TriggerAction :=
  { name := "triggerErrorWithContext"
    effects := [.logAppend "触发带上下文信息的错误",
                .setContext "user_action",
                .throwErr "带有额外上下文信息的错误"] }

/-- The catalog of trigger actions of both views, as enumerated in the
design document's section 4.1 (the component-error toggle of AboutView is a
fault-boundary demonstration that flips two reactive flags and is not one of
the catalogued throw/reject/report actions; the commented-out performance
test is omitted). -/
def triggerCatalog : List TriggerAction :=
  [triggerMemoryLeak, triggerInfiniteLoop, triggerStackOverflow,
   triggerJSONError, triggerCORSError, triggerMultipleErrors,
   triggerCustomError, triggerBreadcrumbTest,
   triggerUndefinedFunction, triggerManualError, triggerPromiseRejection,
   triggerAsyncError, triggerTypeError, triggerReferenceError,
   triggerNetworkError, triggerCaptureException, triggerCaptureMessage,
   triggerErrorWithContext]

/-! ## Helper lemmas -/

theorem addLog_length_le (log : List String) (t m : String) (h : log.length ≤ 10) :
    (addLog log t m).length ≤ 10 := by
  show (if ((t ++ " - " ++ m) :: log).length > 10
      then List.take 10 ((t ++ " - " ++ m) :: log)
      else (t ++ " - " ++ m) :: log).length ≤ 10
  split
  · simp only [List.length_take, List.length_cons]
    omega
  · rename_i hc
    simp only [List.length_cons] at hc ⊢
    omega

theorem runLog_foldl_length_le (ops : List LogOp) :
    ∀ s : List String, s.length ≤ 10 → (ops.foldl applyLogOp s).length ≤ 10 := by
  induction ops with
  | nil => intro s hs; simpa using hs
  | cons op rest ih =>
    intro s hs
    simp only [List.foldl_cons]
    apply ih
    cases op with
    | add t m => simpa [applyLogOp] using addLog_length_le s t m hs
    | clear => simp [applyLogOp, clearLog]

theorem recursiveFunction_error :
    ∀ k d, d + k = 10001 → recursiveFunction d = Except.error "达到最大递归深度" := by
  intro k
  induction k with
  | zero =>
    intro d hd
    rw [recursiveFunction]
    rw [dif_pos (show d > 10000 by omega)]
  | succ n ih =>
    intro d hd
    rw [recursiveFunction]
    rw [dif_neg (show ¬ d > 10000 by omega)]
    exact ih (d + 1) (by omega)

theorem recursionThrowDepth_val :
    ∀ k d, d + k = 10001 → recursionThrowDepth d = 10001 := by
  intro k
  induction k with
  | zero =>
    intro d hd
    rw [recursionThrowDepth]
    rw [dif_pos (show d > 10000 by omega)]
    omega
  | succ n ih =>
    intro d hd
    rw [recursionThrowDepth]
    rw [dif_neg (show ¬ d > 10000 by omega)]
    exact ih (d + 1) (by omega)

/-! ## The claims -/

/-- C1 counterexample: the claim that a single invocation of every catalog
action produces exactly one side effect fails on triggerStackOverflow, a
catalog action whose one invocation produces two side effects: a direct
report call (captureMessage) and then a throw. -/
theorem single_invocation_single_effect_counterexample :
    triggerStackOverflow ∈ triggerCatalog ∧
      primaryEffectCount triggerStackOverflow = 2 := by
  constructor
  · simp [triggerCatalog]
  · rfl

/-- C1 (amended): a single invocation of every catalog action produces at
least one side effect (a throw, a rejection, or a direct report call) — never
zero — when the monitoring client is present; several actions produce more
than one. -/
theorem single_invocation_produces_effect :
    triggerCatalog.all (fun a => decide (1 ≤ primaryEffectCount a)) = true := by
  decide

/-- C2: evaluating the fault boundary at any captured fault: the
onErrorCaptured hook of AboutView records the fault but returns false, and
under Vue's errorCaptured semantics a false return stops the fault from
propagating to ancestor handlers — contrary to the hook's own comment (which
says the fault continues to propagate upward) and to the spec. -/
theorem fault_boundary_suppresses (s : Option String) (msg info : String) :
    (onErrorCapturedHook s msg info).2 = some false ∧
      propagatesUpward (onErrorCapturedHook s msg info).2 = false := by
  exact ⟨rfl, rfl⟩

/-- C3: after any sequence of append and clear operations starting from the
empty log, the Activity Log holds at most 10 entries; and appending to a log
that already holds 10 entries puts the new timestamped entry at the front
and drops the oldest entry from the tail, keeping the surviving entries in
their relative order. -/
theorem activity_log_capped (ops : List LogOp) (log : List String)
    (t m : String) (h : log.length = 10) :
    (runLog ops).length ≤ 10 ∧
      addLog log t m = (t ++ " - " ++ m) :: log.dropLast := by
  constructor
  · exact runLog_foldl_length_le ops [] (by simp)
  · unfold addLog
    rw [if_pos (by simp [h])]
    simp [List.dropLast_eq_take, h, List.take_succ_cons]

theorem activity_log_capped_witness :
    (["a", "b", "c", "d", "e", "f", "g", "h", "i", "j"] : List String).length = 10 ∧
    ((runLog [LogOp.add "09:00:00" "entry"]).length ≤ 10 ∧
      addLog ["a", "b", "c", "d", "e", "f", "g", "h", "i", "j"] "09:00:00" "entry" =
        ("09:00:00" ++ " - " ++ "entry") ::
          (["a", "b", "c", "d", "e", "f", "g", "h", "i", "j"] : List String).dropLast) :=
  ⟨by decide,
   activity_log_capped [LogOp.add "09:00:00" "entry"]
     ["a", "b", "c", "d", "e", "f", "g", "h", "i", "j"] "09:00:00" "entry" (by decide)⟩

/-- C4: the recursion of triggerStackOverflow, started at depth 0, raises
its controlled error exactly when the depth counter reaches 10001 (the first
value exceeding the bound 10000); recursiveFunction is a total function in
this embedding, so the raise is the explicit counter check, not a host
stack-overflow signal. -/
theorem stack_overflow_controlled :
    recursiveFunction 0 = Except.error "达到最大递归深度" ∧
      recursionThrowDepth 0 = 10001 :=
  ⟨recursiveFunction_error 10001 0 (by omega), recursionThrowDepth_val 10001 0 (by omega)⟩

/-- C6: the Error Boundary State holds a single optional fault: capturing
fault A and then fault B leaves exactly B's formatted message and info in the
state, whatever was there before, and the explicit clear resets the state to
empty. -/
theorem boundary_retains_latest (s : Option String) (a ai b bi : String) :
    (onErrorCapturedHook (onErrorCapturedHook s a ai).1 b bi).1 =
        some (b ++ " (" ++ bi ++ ")") ∧
      clearComponentError = none :=
  ⟨rfl, rfl⟩

/-- C7: clearing the Activity Log from any state yields the empty sequence,
and clearing again changes nothing — clear is idempotent. -/
theorem clear_log_idempotent (log : List String) :
    clearLog log = [] ∧ clearLog (clearLog log) = clearLog log :=
  ⟨rfl, rfl⟩

/-- C8: the strict parse of the fixed malformed literal fed by
triggerJSONError always fails and never returns a value (the parse is a pure
function of the literal, so this holds on every invocation). -/
theorem json_parse_always_fails : JSON.parse invalidJSON = none := by
  decide

/-- C10: the counting loop of triggerInfiniteLoop, starting from 0 and
incrementing by 1, terminates with the counter exactly at the limit
1,000,000 (so it executes exactly 1,000,000 iterations), and the action then
unconditionally throws an error whose message reports that limit. -/
theorem loop_error_terminates :
    loopWhile 0 loopLimit = loopLimit ∧
      triggerInfiniteLoop.effects =
        [Effect.reportMessage "触发了无限循环错误（已限制）" "warning",
         Effect.throwErr "循环执行了 1000000 次后抛出错误"] := by
  constructor
  · exact loopWhile_eq loopLimit loopLimit 0 (by simp)
  · rfl

/-- C5: without any external interaction, from the 50th tick (the 5000 ms
mark, when the one-shot timeout fires) onward, the repeating interval of the
bounded-growth demo is canceled and every accumulated buffer is released, so
allocation never continues past the 5-second bound. -/
theorem leak_growth_bounded (n : Nat) (h : 50 ≤ n) :
    (leakRun n).intervalActive = false ∧ (leakRun n).buffers = [] := by
  induction n, h using Nat.le_induction with
  | base => exact ⟨by decide, by decide⟩
  | succ n hn ih =>
    simp only [leakRun, leakStep, ih.1, ih.2]
    rw [if_neg (show ¬ 100 * (n + 1) = 5000 by omega)]
    simp only [Bool.false_eq_true, if_false]
    exact ih

theorem leak_growth_bounded_witness :
    50 ≤ 60 ∧
      ((leakRun 60).intervalActive = false ∧ (leakRun 60).buffers = []) :=
  ⟨by decide, leak_growth_bounded 60 (by decide)⟩

/-- C9: the monitoring client is constructed at startup if and only if the
deployment-mode flag equals the production designator; when the flag is
absent or different no client exists, and both direct report-emission entry
points are no-ops that return successfully (no throw). -/
theorem monitoring_bootstrap_gated (mode dsn ver : Option String) (m l : String)
    (h : mode ≠ some "production") :
    bootstrapClient mode dsn ver = none ∧
      captureMessageSDK (bootstrapClient mode dsn ver) m l = Except.ok [] ∧
      captureExceptionSDK (bootstrapClient mode dsn ver) m = Except.ok [] ∧
      (bootstrapClient (some "production") dsn ver).isSome = true := by
  have hb : bootstrapClient mode dsn ver = none := by
    unfold bootstrapClient
    rw [if_neg h]
  refine ⟨hb, ?_, ?_, ?_⟩
  · rw [hb]; rfl
  · rw [hb]; rfl
  · unfold bootstrapClient
    rw [if_pos rfl]
    rfl

theorem monitoring_bootstrap_gated_witness :
    (some "development" ≠ some "production") ∧
      (bootstrapClient (some "development") none none = none ∧
        captureMessageSDK (bootstrapClient (some "development") none none)
            "这是一条测试消息" "warning" = Except.ok [] ∧
        captureExceptionSDK (bootstrapClient (some "development") none none)
            "这是一条测试消息" = Except.ok [] ∧
        (bootstrapClient (some "production") none none).isSome = true) :=
  ⟨by decide,
   monitoring_bootstrap_gated (some "development") none none
     "这是一条测试消息" "warning" (by decide)⟩
